import Mathlib

/-!
Verification development for the rt-rpi core runtime: a shallow embedding of
the Endpoint registry (`core/com.py`), the thread supervision kernel
(`core/threadmanager.py`) and the process manager (`core/procmanager.py`),
with theorems settling the specified properties of those components.

Python object identity is modelled with numeric object ids: endpoints and
queues live in association lists indexed by their ids, and fresh ids are
drawn from counters, so that `is`-style identity questions become id
equality.  Message payloads are opaque to the transport and are modelled by
`Nat`; the Python value `None` (which is also the transmit sentinel) is
modelled by `Option.none`, so a message is an `Option Nat`.
-/

/-- Error taxonomy of the runtime.  The Python code raises `RuntimeError`
both for invalid-state misuse (role already attached, roster locked) and
for the self-stop programming error; `connError` models
`ConnectionError`. -/
inductive RTError where
  | invalidState
  | invalidOp
  | connFailed
  deriving DecidableEq

/-- The role attached to an Endpoint: `ListenerThread` or `ClientThread`. -/
inductive Role where
  | listener
  | client
  deriving DecidableEq

/-- A transported message.  `none` models the Python value `None`, which is
also the reserved sentinel of `ConnTxThread`. -/
abbrev Msg := Option Nat

/-- Lookup in an association list (first match wins), modelling a Python
dict read. -/
def alookup {α β : Type} [DecidableEq α] (k : α) : List (α × β) → Option β
  | [] => none
  | p :: t => if p.1 = k then some p.2 else alookup k t

/-- Overwrite-or-append update of an association list, modelling a Python
dict write. -/
def aupdate {α β : Type} [DecidableEq α] (k : α) (v : β) : List (α × β) → List (α × β)
  | [] => [(k, v)]
  | p :: t => if p.1 = k then (k, v) :: t else p :: aupdate k v t

/-- The fields of one `Endpoint` instance: its address, the ids of its
`_rx_queue` and `_tx_queue` objects, and the attached `_ep_handler` role
(`none` when no role is attached). -/
structure EndpointObj where
  address : String
  rxQ : Nat
  txQ : Nat
  epHandler : Option Role
  deriving DecidableEq

/-- The process-wide communication state: the `Endpoint._instances`
registry (address to endpoint id), the endpoint objects, the queue objects
(id to FIFO contents, head = oldest), and the allocation counters for
fresh object ids. -/
structure ComState where
  registry : List (String × Nat)
  endpoints : List (Nat × EndpointObj)
  queues : List (Nat × List Msg)
  nextEp : Nat
  nextQ : Nat
  deriving DecidableEq

/-- Well-formedness of a `ComState`: registered endpoint ids are below the
allocation counter, distinct addresses map to distinct endpoint ids, and
every queue id held by an endpoint object is below the queue counter. -/
def ComState.WF (s : ComState) : Prop :=
  (∀ p ∈ s.registry, p.2 < s.nextEp)
    ∧ (∀ p ∈ s.registry, ∀ q ∈ s.registry, p.2 = q.2 → p.1 = q.1)
    ∧ (∀ p ∈ s.endpoints, p.2.rxQ < s.nextQ ∧ p.2.txQ < s.nextQ)

instance (s : ComState) : Decidable s.WF := by
  unfold ComState.WF; infer_instance

/-- The empty communication state at interpreter startup. -/
def initialComState : ComState :=
  { registry := [], endpoints := [], queues := [], nextEp := 0, nextQ := 0 }

/-- Model of `Endpoint.__new__`: return the registered instance for an
already-used address, otherwise allocate a fresh instance and register
it. -/
def Endpoint.newInstance (address : String) (s : ComState) : Nat × ComState :=
  match alookup address s.registry with
  | some i => (i, s)
  | none =>
      (s.nextEp,
        { s with
            registry := (address, s.nextEp) :: s.registry,
            nextEp := s.nextEp + 1 })

/-- Model of `Endpoint.__init__` running on instance `i`: store the
address, bind two freshly allocated empty queues as `_rx_queue` and
`_tx_queue` (allocated in that order), and reset `_ep_handler` to
`None`. -/
def Endpoint.initInstance (address : String) (i : Nat) (s : ComState) : ComState :=
  { s with
      endpoints :=
        aupdate i
          { address := address, rxQ := s.nextQ, txQ := s.nextQ + 1, epHandler := none }
          s.endpoints,
      queues := aupdate (s.nextQ + 1) [] (aupdate s.nextQ [] s.queues),
      nextQ := s.nextQ + 2 }

/-- Model of evaluating `Endpoint(address)`: Python calls `__new__` and then
always runs `__init__` on the returned instance. -/
def Endpoint.construct (address : String) (s : ComState) : Nat × ComState :=
  let r := Endpoint.newInstance address s
  (r.1, Endpoint.initInstance address r.1 r.2)

/-- Model of `Endpoint.listen`: raise `RuntimeError` when a role is already
attached (leaving the endpoint unchanged), otherwise attach the Listener
role.  The result pairs the raised-or-returned outcome with the endpoint
state after the call. -/
def Endpoint.listen (e : EndpointObj) : (Except RTError Unit) × EndpointObj :=
  match e.epHandler with
  | some _ => (Except.error RTError.invalidState, e)
  | none => (Except.ok (), { e with epHandler := some Role.listener })

/-- Model of `Endpoint.connect`: raise `RuntimeError` when a role is already
attached (leaving the endpoint unchanged), otherwise attach the Client
role. -/
def Endpoint.connect (e : EndpointObj) : (Except RTError Unit) × EndpointObj :=
  match e.epHandler with
  | some _ => (Except.error RTError.invalidState, e)
  | none => (Except.ok (), { e with epHandler := some Role.client })

/-- Model of `Endpoint.__exit__`: stop the attached handler (not modelled
further) and release the role back to `None`. -/
def Endpoint.exitCtx (e : EndpointObj) : EndpointObj :=
  { e with epHandler := none }

/-- Model of `Endpoint.send` on the `_tx_queue` contents: `put` on the
unbounded `Queue` always succeeds and appends the message, whatever the
message value (including `None`). -/
def Endpoint.sendModel (q : List Msg) (m : Msg) : List Msg :=
  q ++ [m]

/-- The state of a `ManagedThread` relevant to its stop protocol: the id of
the OS thread it runs on (so that `threading.current_thread()` identity can
be compared) and the `_stop_evt` flag. -/
structure MThread where
  tid : Nat
  stopEvt : Bool
  deriving DecidableEq

/-- Model of the `ManagedThread.stop_signal` property setter: the event is
set only on a false-to-true transition; assigning a falsy value does
nothing, and the event is never cleared. -/
def ManagedThread.setStopSignal (t : MThread) (value : Bool) : MThread :=
  if value && !t.stopEvt then { t with stopEvt := true } else t

/-- Model of `ManagedThread.stop` called by OS thread `caller` with an
optional `timeout`: a self-call raises `RuntimeError` before touching any
state; otherwise the stop signal is assigned true and, when `timeout` is
truthy (not `None` and nonzero), the caller joins.  The result is the
raised-or-returned outcome, the thread state after the call, and whether a
join was performed. -/
def ManagedThread.stop (t : MThread) (caller : Nat) (timeout : Option ℚ) :
    (Except RTError Unit) × MThread × Bool :=
  if caller = t.tid then (Except.error RTError.invalidOp, t, false)
  else
    (Except.ok (), ManagedThread.setStopSignal t true,
      match timeout with
      | none => false
      | some x => decide (x ≠ 0))

/-- How one execution of the `ConnTxThread.run` loop ended: the
`while not self.stop_signal` guard observed the stop event, the popped
message was the sentinel, or the queue ran dry and the loop is blocked in
`get()`. -/
inductive TxExit where
  | signalExit
  | sentinelExit
  | blockedEmpty
  deriving DecidableEq

/-- The `ConnTxThread._sentinel` value: the Python constant `None`. -/
def ConnTxThread.sentinel : Msg := none

/-- Model of the `ConnTxThread.run` loop body over the `_tx_queue`
contents.  `sigSet` is the loop-check index at which the stop event is
first observed set (the signal is one-way, so observations are monotone);
`i` counts the checks performed so far.  Each iteration first evaluates the
`while not self.stop_signal` guard, then pops one message: the sentinel
(`None`) breaks the loop without transmitting, any other message is sent on
the connection.  The result lists the transmitted payloads in order and
reports how the loop ended. -/
def ConnTxThread.runAux (sigSet : Nat) : Nat → List Msg → List Nat × TxExit
  | i, [] =>
      if sigSet ≤ i then ([], TxExit.signalExit) else ([], TxExit.blockedEmpty)
  | i, m :: rest =>
      if sigSet ≤ i then ([], TxExit.signalExit)
      else
        match m with
        | none => ([], TxExit.sentinelExit)
        | some v =>
            let r := ConnTxThread.runAux sigSet (i + 1) rest
            (v :: r.1, r.2)

/-- Model of `ConnTxThread.run` from the first loop check. -/
def ConnTxThread.runModel (sigSet : Nat) (q : List Msg) : List Nat × TxExit :=
  ConnTxThread.runAux sigSet 0 q

/-- Outcome of the `ClientThread.connect` retry loop: a connection
established at a given attempt and elapsed time, a `ConnectionError`
raised at a given attempt and elapsed time, or exhaustion of the
modelling fuel. -/
inductive ConnOutcome where
  | connected (attempt : Nat) (elapsed : ℚ)
  | connError (attempt : Nat) (elapsed : ℚ)
  | outOfFuel
  deriving DecidableEq

/-- Model of the `ClientThread.connect` retry loop.  `succ k` tells whether
the `Client(...)` call of attempt `k` succeeds; `elapsed` is the time since
`start_time` (attempts are instantaneous, sleeps advance the clock);
`backoff` is the current sleep duration.  On a failed attempt the loop
raises `ConnectionError` when the elapsed time strictly exceeds `timeout`,
otherwise it sleeps for `backoff` seconds and doubles the backoff.  The
result records the performed sleeps in order together with the outcome;
`fuel` bounds the number of attempts modelled. -/
def ClientThread.connectAux (succ : Nat → Bool) (timeout : ℚ) :
    Nat → Nat → ℚ → ℚ → List ℚ × ConnOutcome
  | 0, _, _, _ => ([], ConnOutcome.outOfFuel)
  | fuel + 1, attempt, elapsed, backoff =>
      if succ attempt then ([], ConnOutcome.connected attempt elapsed)
      else if timeout < elapsed then ([], ConnOutcome.connError attempt elapsed)
      else
        let r := ClientThread.connectAux succ timeout fuel (attempt + 1)
          (elapsed + backoff) (backoff * 2)
        (backoff :: r.1, r.2)

/-- Model of `ClientThread.connect` from its entry: zero elapsed time and
the initial backoff of `1/1000` seconds. -/
def ClientThread.connectModel (succ : Nat → Bool) (timeout : ℚ) (fuel : Nat) :
    List ℚ × ConnOutcome :=
  ClientThread.connectAux succ timeout fuel 0 0 (1 / 1000)

/-- Elapsed time since `start_time` when the loop check of attempt `k`
runs: the sum of the first `k` backoff sleeps. -/
def ClientThread.elapsedAt (k : Nat) : ℚ :=
  ((2 : ℚ) ^ k - 1) / 1000

/-- The backoff delay slept after failed attempt `k`. -/
def ClientThread.backoffAt (k : Nat) : ℚ :=
  (2 : ℚ) ^ k / 1000

/-- The global state of the process roster: the
`ManagedProcess.MANAGED_PROCESSES` registration list (process ids in
registration order), the `ManagedProcess._lock` flag, and the id counter
for constructing processes. -/
structure ProcState where
  managedProcesses : List Nat
  lock : Bool
  nextPid : Nat
  deriving DecidableEq

/-- Model of `ManagedProcess.__init__` restricted to the roster state: when
the class lock is set, `RuntimeError` is raised before any registration, so
the roster is untouched; otherwise the new instance is appended to
`MANAGED_PROCESSES`.  The result pairs the raised-or-returned instance id
with the roster state after the call. -/
def ManagedProcess.init (s : ProcState) : (Except RTError Nat) × ProcState :=
  if s.lock then (Except.error RTError.invalidState, s)
  else
    (Except.ok s.nextPid,
      { s with
          managedProcesses := s.managedProcesses ++ [s.nextPid],
          nextPid := s.nextPid + 1 })

/-- Model of `ProcessManager.start` restricted to the roster state: when
`ManagedProcess._lock` is already set it raises `RuntimeError` and changes
nothing; otherwise it sets the lock and enters every registered process
context (the started processes themselves are outside this state). -/
def ProcessManager.start (s : ProcState) : (Except RTError Unit) × ProcState :=
  if s.lock then (Except.error RTError.invalidState, s)
  else (Except.ok (), { s with lock := true })

/-- Outcome of the priority handling in `ManagedProcess._set_scheduler`:
either a priority is applied (with or without the clamping warning), or an
exception escaped to the outer `except` handler, which only logs an error
and applies nothing. -/
inductive SchedResult where
  | applied (priority : Int) (warned : Bool)
  | errorLogged
  deriving DecidableEq

/-- Model of the priority computation of `ManagedProcess._set_scheduler`,
given the OS-reported bounds `minPrio`/`maxPrio` for the requested policy
and the requested `priority`, following the evaluation order of the
condition `(min_prio := ...) > priority or (max_prio := ...) < priority`:
when `min_prio > priority` the `or` short-circuits, so the `max_prio`
walrus never executes and the warning f-string then reads the unbound
`max_prio`, raising `UnboundLocalError`, which the surrounding
`except Exception` catches — no warning, no clamp, no scheduler applied.
Only when `min_prio ≤ priority < max_prio` fails in the other direction
are both names bound: the warning is logged and the priority clamped to
`max(min_prio, min(max_prio, priority))`; an in-range priority is applied
unchanged without warning. -/
def ManagedProcess.setSchedulerPriority (minPrio maxPrio priority : Int) :
    SchedResult :=
  if minPrio > priority then SchedResult.errorLogged
  else if maxPrio < priority then
    SchedResult.applied (max minPrio (min maxPrio priority)) true
  else SchedResult.applied priority false

/-- Concrete well-formed communication state used to witness theorems about
re-construction: address `a` is registered with an attached Listener role
and pending messages in both queues. -/
def comWitState : ComState :=
  { registry := [("a", 0)],
    endpoints := [(0, { address := "a", rxQ := 0, txQ := 1, epHandler := some Role.listener })],
    queues := [(0, [some 5]), (1, [some 7])],
    nextEp := 1,
    nextQ := 2 }

theorem alookup_aupdate_self {α β : Type} [DecidableEq α] (k : α) (v : β)
    (l : List (α × β)) : alookup k (aupdate k v l) = some v := by
  induction l with
  | nil => simp [alookup, aupdate]
  | cons p t ih =>
      by_cases h : p.1 = k
      · simp [aupdate, h, alookup]
      · simp [aupdate, h, alookup, ih]

theorem alookup_aupdate_ne {α β : Type} [DecidableEq α] {k j : α} (v : β)
    (l : List (α × β)) (h : k ≠ j) : alookup k (aupdate j v l) = alookup k l := by
  induction l with
  | nil => simp [alookup, aupdate, Ne.symm h]
  | cons p t ih =>
      by_cases hp : p.1 = j
      · simp [aupdate, hp, alookup, Ne.symm h, ih]
      · simp [aupdate, hp, alookup, ih]

theorem alookup_mem {α β : Type} [DecidableEq α] {k : α} {v : β} :
    ∀ {l : List (α × β)}, alookup k l = some v → (k, v) ∈ l := by
  intro l
  induction l with
  | nil => intro h; simp [alookup] at h
  | cons p t ih =>
      intro h
      by_cases hp : p.1 = k
      · simp [alookup, hp] at h
        subst h
        subst hp
        exact List.mem_cons_self _ _
      · simp [alookup, hp] at h
        exact List.mem_cons_of_mem _ (ih h)

theorem construct_of_found {a : String} {s : ComState} {i : Nat}
    (h : alookup a s.registry = some i) :
    Endpoint.construct a s = (i, Endpoint.initInstance a i s) := by
  simp [Endpoint.construct, Endpoint.newInstance, h]

theorem construct_of_notFound {a : String} {s : ComState}
    (h : alookup a s.registry = none) :
    Endpoint.construct a s =
      (s.nextEp, Endpoint.initInstance a s.nextEp
        { s with
            registry := (a, s.nextEp) :: s.registry,
            nextEp := s.nextEp + 1 }) := by
  simp [Endpoint.construct, Endpoint.newInstance, h]

/-- Claim C3: while a role is attached, both `listen()` and `connect()`
raise the invalid-state error and leave the attached role unchanged; after
the role is released, either attach attempt succeeds again. -/
theorem endpoint_role_exclusive (e : EndpointObj) (r : Role)
    (h : e.epHandler = some r) :
    Endpoint.listen e = (Except.error RTError.invalidState, e)
    ∧ Endpoint.connect e = (Except.error RTError.invalidState, e)
    ∧ (Endpoint.listen (Endpoint.exitCtx e)).1 = Except.ok ()
    ∧ (Endpoint.connect (Endpoint.exitCtx e)).1 = Except.ok () := by
  refine ⟨?_, ?_, ?_, ?_⟩ <;>
    simp [Endpoint.listen, Endpoint.connect, Endpoint.exitCtx, h]

theorem endpoint_role_exclusive_witness :
    Endpoint.listen { address := "a", rxQ := 0, txQ := 1, epHandler := some Role.client }
      = (Except.error RTError.invalidState,
          { address := "a", rxQ := 0, txQ := 1, epHandler := some Role.client }) :=
  (endpoint_role_exclusive
    { address := "a", rxQ := 0, txQ := 1, epHandler := some Role.client }
    Role.client rfl).1

/-- Claim C6: `stop(timeout)` called from the unit's own thread raises the
invalid-operation error and changes nothing: the stop signal is not raised
and no join occurs. -/
theorem managed_thread_self_stop (t : MThread) (timeout : Option ℚ) :
    ManagedThread.stop t t.tid timeout = (Except.error RTError.invalidOp, t, false) := by
  simp [ManagedThread.stop]

/-- Claim C7: the stop signal is one-way: assigning false never clears it,
once set every modelled operation preserves it, and a second stop call
leaves the already-set signal (and the whole thread state) unchanged. -/
theorem stop_signal_one_way (t : MThread) (v : Bool) (caller : Nat)
    (timeout : Option ℚ) :
    ManagedThread.setStopSignal t false = t
    ∧ (t.stopEvt = true → ManagedThread.setStopSignal t v = t)
    ∧ (t.stopEvt = true → ((ManagedThread.stop t caller timeout).2.1).stopEvt = true)
    ∧ (t.stopEvt = true → caller ≠ t.tid →
        (ManagedThread.stop t caller timeout).2.1 = t) := by
  refine ⟨?_, ?_, ?_, ?_⟩
  · simp [ManagedThread.setStopSignal]
  · intro h; simp [ManagedThread.setStopSignal, h]
  · intro h
    by_cases hc : caller = t.tid <;>
      simp [ManagedThread.stop, hc, ManagedThread.setStopSignal, h]
  · intro h hc
    simp [ManagedThread.stop, hc, ManagedThread.setStopSignal, h]

theorem stop_signal_one_way_witness :
    ManagedThread.setStopSignal { tid := 1, stopEvt := true } false
      = { tid := 1, stopEvt := true }
    ∧ (ManagedThread.stop { tid := 1, stopEvt := true } 2 none).2.1
      = { tid := 1, stopEvt := true } := by
  have h := stop_signal_one_way { tid := 1, stopEvt := true } false 2 none
  exact ⟨h.1, h.2.2.2 rfl (by decide)⟩

/-- Claim C4: once `ProcessManager.start` has taken the roster lock, every
subsequent `ManagedProcess` construction raises the locked-state error and
leaves the roster unchanged, and a second `start()` raises the same
error. -/
theorem roster_lock_one_shot (s : ProcState) (h : s.lock = false) :
    (ProcessManager.start s).1 = Except.ok ()
    ∧ (ProcessManager.start s).2.lock = true
    ∧ (ProcessManager.start s).2.managedProcesses = s.managedProcesses
    ∧ ManagedProcess.init (ProcessManager.start s).2
        = (Except.error RTError.invalidState, (ProcessManager.start s).2)
    ∧ ProcessManager.start (ProcessManager.start s).2
        = (Except.error RTError.invalidState, (ProcessManager.start s).2) := by
  simp [ProcessManager.start, ManagedProcess.init, h]

theorem roster_lock_one_shot_witness :
    ManagedProcess.init
        (ProcessManager.start { managedProcesses := [0], lock := false, nextPid := 1 }).2
      = (Except.error RTError.invalidState,
          (ProcessManager.start { managedProcesses := [0], lock := false, nextPid := 1 }).2) :=
  (roster_lock_one_shot { managedProcesses := [0], lock := false, nextPid := 1 } rfl).2.2.2.1

/-- Claim C8 (code bug evaluation): with the OS-reported range 1 to 99 for
the policy, a requested priority 0 below the minimum takes the
`UnboundLocalError` path — the short-circuited `or` leaves `max_prio`
unbound, the warning f-string raises, and the outer `except` logs an
error: no warning, no clamp, and no scheduler application, where the
claim promises clamping to the minimum with a warning.  A request above
the maximum is clamped as claimed, and an in-range request is applied
unchanged. -/
theorem sched_priority_below_min_error :
    ManagedProcess.setSchedulerPriority 1 99 0 = SchedResult.errorLogged
    ∧ ManagedProcess.setSchedulerPriority 1 99 120 = SchedResult.applied 99 true
    ∧ ManagedProcess.setSchedulerPriority 1 99 50 = SchedResult.applied 50 false := by
  decide

theorem runAux_drain (msgs : List Nat) : ∀ sigSet i : Nat,
    ConnTxThread.runAux sigSet i (msgs.map some ++ [ConnTxThread.sentinel])
      = (msgs.take (sigSet - i),
          if sigSet ≤ i + msgs.length then TxExit.signalExit else TxExit.sentinelExit) := by
  induction msgs with
  | nil =>
      intro sigSet i
      by_cases h : sigSet ≤ i <;>
        simp [ConnTxThread.runAux, ConnTxThread.sentinel, h]
  | cons m ms ih =>
      intro sigSet i
      by_cases h : sigSet ≤ i
      · have h2 : sigSet ≤ i + (ms.length + 1) := by omega
        have h3 : sigSet - i = 0 := by omega
        simp [ConnTxThread.runAux, h, h2, h3]
      · have h3 : sigSet - i = (sigSet - (i + 1)) + 1 := by omega
        have h4 : i + 1 + ms.length = i + (ms.length + 1) := by omega
        simp [ConnTxThread.runAux, h, ih sigSet (i + 1), h3, h4]

/-- Claim C2 (code bug): with messages 10 and 20 enqueued before `stop()`
appends the sentinel, a forwarder whose `while not self.stop_signal` guard
observes the stop event at its second loop check transmits only the first
message and terminates through the guard, losing the second queued
message — the spec promises that every already-queued message is
transmitted before termination. -/
theorem tx_stop_loses_queued_messages :
    ConnTxThread.runModel 1 [some 10, some 20, ConnTxThread.sentinel]
      = ([10], TxExit.signalExit) := by decide

/-- Claim C9 (counterexample): the sentinel of `ConnTxThread` is the Python
value `None`, which `Endpoint.send` accepts like any other payload, and an
outbound-forwarder that pops it terminates without transmitting anything —
so a user message equal to the sentinel defeats the claimed
distinctness. -/
theorem sentinel_is_user_payload_cex :
    ∃ m : Msg, Endpoint.sendModel [] m = [m]
      ∧ m = ConnTxThread.sentinel
      ∧ ConnTxThread.runModel 100 [m] = ([], TxExit.sentinelExit) :=
  ⟨ConnTxThread.sentinel, by decide, rfl, by decide⟩

/-- Claim C9 (amended): the sentinel `None` is itself a representable user
payload, so the claimed distinctness fails for `None`; for every other
payload it holds: a popped non-`None` message is always transmitted and
never terminates the forwarder loop. -/
theorem nonsentinel_always_transmitted (sigSet i : Nat) (v : Nat)
    (rest : List Msg) (h : ¬ sigSet ≤ i) :
    ConnTxThread.runAux sigSet i (some v :: rest)
      = (v :: (ConnTxThread.runAux sigSet (i + 1) rest).1,
          (ConnTxThread.runAux sigSet (i + 1) rest).2) := by
  simp [ConnTxThread.runAux, h]

theorem nonsentinel_always_transmitted_witness :
    ConnTxThread.runAux 5 0 [some 42]
      = (42 :: (ConnTxThread.runAux 5 1 []).1, (ConnTxThread.runAux 5 1 []).2) :=
  nonsentinel_always_transmitted 5 0 42 [] (by decide)

theorem construct_endpoints (a : String) (s : ComState) :
    (Endpoint.construct a s).2.endpoints
      = aupdate (Endpoint.construct a s).1
          { address := a, rxQ := s.nextQ, txQ := s.nextQ + 1, epHandler := none }
          s.endpoints := by
  cases h : alookup a s.registry with
  | some i => rw [construct_of_found h]; rfl
  | none => rw [construct_of_notFound h]; rfl

theorem construct_nextQ (a : String) (s : ComState) :
    (Endpoint.construct a s).2.nextQ = s.nextQ + 2 := by
  cases h : alookup a s.registry with
  | some i => rw [construct_of_found h]; rfl
  | none => rw [construct_of_notFound h]; rfl

theorem construct_lookup_self (a : String) (s : ComState) :
    alookup a (Endpoint.construct a s).2.registry = some (Endpoint.construct a s).1 := by
  cases h : alookup a s.registry with
  | some i => rw [construct_of_found h]; exact h
  | none => rw [construct_of_notFound h]; simp [alookup]

theorem construct_idempotent_fst (a : String) (s : ComState) :
    (Endpoint.construct a (Endpoint.construct a s).2).1 = (Endpoint.construct a s).1 := by
  rw [construct_of_found (construct_lookup_self a s)]

theorem construct_fst_ne (s : ComState) (a b : String) (hWF : s.WF) (hab : a ≠ b) :
    (Endpoint.construct b (Endpoint.construct a s).2).1 ≠ (Endpoint.construct a s).1 := by
  obtain ⟨hbound, hinj, -⟩ := hWF
  cases h1 : alookup a s.registry with
  | some i =>
      have hfst : (Endpoint.construct a s).1 = i := by rw [construct_of_found h1]
      have hreg : (Endpoint.construct a s).2.registry = s.registry := by
        rw [construct_of_found h1]; rfl
      cases h2 : alookup b s.registry with
      | some j =>
          have hb : alookup b (Endpoint.construct a s).2.registry = some j := by
            rw [hreg]; exact h2
          rw [construct_of_found hb, hfst]
          intro heq
          exact hab (hinj (a, i) (alookup_mem h1) (b, j) (alookup_mem h2) heq.symm)
      | none =>
          have hb : alookup b (Endpoint.construct a s).2.registry = none := by
            rw [hreg]; exact h2
          have hep : (Endpoint.construct a s).2.nextEp = s.nextEp := by
            rw [construct_of_found h1]; rfl
          rw [construct_of_notFound hb, hfst, hep]
          have : i < s.nextEp := hbound (a, i) (alookup_mem h1)
          omega
  | none =>
      have hfst : (Endpoint.construct a s).1 = s.nextEp := by
        rw [construct_of_notFound h1]
      have hreg : (Endpoint.construct a s).2.registry
          = (a, s.nextEp) :: s.registry := by
        rw [construct_of_notFound h1]; rfl
      have hlk : alookup b (Endpoint.construct a s).2.registry = alookup b s.registry := by
        rw [hreg]; simp [alookup, hab]
      cases h2 : alookup b s.registry with
      | some j =>
          have hb : alookup b (Endpoint.construct a s).2.registry = some j := by
            rw [hlk]; exact h2
          rw [construct_of_found hb, hfst]
          have : j < s.nextEp := hbound (b, j) (alookup_mem h2)
          omega
      | none =>
          have hb : alookup b (Endpoint.construct a s).2.registry = none := by
            rw [hlk]; exact h2
          have hep : (Endpoint.construct a s).2.nextEp = s.nextEp + 1 := by
            rw [construct_of_notFound h1]; rfl
          rw [construct_of_notFound hb, hfst, hep]
          omega

/-- Claim C1 (amended): two constructions with the same address return the
same instance id and never a new instance, and constructions with
different addresses never share any mailbox state (all four queue ids are
distinct); however each construction re-runs `__init__` on the shared
instance and installs fresh queue objects, so the mailbox pair shared by
the two references is the instance's current pair, not the queue objects
the first construction installed. -/
theorem endpoint_flyweight (s : ComState) (a b : String) (hWF : s.WF)
    (hab : a ≠ b) :
    (Endpoint.construct a (Endpoint.construct a s).2).1 = (Endpoint.construct a s).1
    ∧ (Endpoint.construct b (Endpoint.construct a s).2).1 ≠ (Endpoint.construct a s).1
    ∧ ∃ oa ob : EndpointObj,
        alookup (Endpoint.construct a s).1
            (Endpoint.construct b (Endpoint.construct a s).2).2.endpoints = some oa
        ∧ alookup (Endpoint.construct b (Endpoint.construct a s).2).1
            (Endpoint.construct b (Endpoint.construct a s).2).2.endpoints = some ob
        ∧ oa.rxQ ≠ ob.rxQ ∧ oa.rxQ ≠ ob.txQ ∧ oa.txQ ≠ ob.rxQ ∧ oa.txQ ≠ ob.txQ := by
  have hne := construct_fst_ne s a b hWF hab
  refine ⟨construct_idempotent_fst a s, hne, ?_⟩
  refine ⟨{ address := a, rxQ := s.nextQ, txQ := s.nextQ + 1, epHandler := none },
    { address := b, rxQ := (Endpoint.construct a s).2.nextQ,
      txQ := (Endpoint.construct a s).2.nextQ + 1, epHandler := none }, ?_, ?_, ?_, ?_, ?_, ?_⟩
  · rw [construct_endpoints b (Endpoint.construct a s).2,
      alookup_aupdate_ne _ _ (Ne.symm hne), construct_endpoints a s,
      alookup_aupdate_self]
  · rw [construct_endpoints b (Endpoint.construct a s).2, alookup_aupdate_self]
  · show s.nextQ ≠ (Endpoint.construct a s).2.nextQ
    rw [construct_nextQ]; omega
  · show s.nextQ ≠ (Endpoint.construct a s).2.nextQ + 1
    rw [construct_nextQ]; omega
  · show s.nextQ + 1 ≠ (Endpoint.construct a s).2.nextQ
    rw [construct_nextQ]; omega
  · show s.nextQ + 1 ≠ (Endpoint.construct a s).2.nextQ + 1
    rw [construct_nextQ]; omega

theorem endpoint_flyweight_witness :
    (Endpoint.construct "a" (Endpoint.construct "a" initialComState).2).1
      = (Endpoint.construct "a" initialComState).1
    ∧ (Endpoint.construct "b" (Endpoint.construct "a" initialComState).2).1
      ≠ (Endpoint.construct "a" initialComState).1 := by
  have h := endpoint_flyweight initialComState "a" "b" (by decide) (by decide)
  exact ⟨h.1, h.2.1⟩

/-- Claim C1 (counterexample): at the concrete input of two constructions
with address `a` from the empty registry, both return instance id 0, but
the inbound queue object held after the first construction is queue id 0
while the one held after the second construction is queue id 2 — the two
constructions do not share the same inbound queue object, refuting the
claim as stated. -/
theorem endpoint_flyweight_cex :
    (Endpoint.construct "a" (Endpoint.construct "a" initialComState).2).1
      = (Endpoint.construct "a" initialComState).1
    ∧ (alookup (Endpoint.construct "a" initialComState).1
          (Endpoint.construct "a" initialComState).2.endpoints).map EndpointObj.rxQ
        = some 0
    ∧ (alookup (Endpoint.construct "a" (Endpoint.construct "a" initialComState).2).1
          (Endpoint.construct "a" (Endpoint.construct "a" initialComState).2).2.endpoints).map
        EndpointObj.rxQ = some 2
    ∧ ¬((alookup (Endpoint.construct "a" initialComState).1
          (Endpoint.construct "a" initialComState).2.endpoints).map EndpointObj.rxQ
        = (alookup (Endpoint.construct "a" (Endpoint.construct "a" initialComState).2).1
            (Endpoint.construct "a" (Endpoint.construct "a" initialComState).2).2.endpoints).map
          EndpointObj.rxQ) := by decide

/-- Claim C10: constructing an Endpoint with an already-registered address
re-runs initialization on the existing instance: the same instance id is
returned, the attached-role field is reset to none even if a role was
attached, and both mailboxes are replaced by fresh empty queues whose ids
differ from the previous ones, making pending messages in the old queues
unreachable through the endpoint. -/
theorem endpoint_reinit (s : ComState) (a : String) (i : Nat) (o : EndpointObj)
    (hWF : s.WF) (hreg : alookup a s.registry = some i)
    (hobj : alookup i s.endpoints = some o) :
    (Endpoint.construct a s).1 = i
    ∧ alookup i (Endpoint.construct a s).2.endpoints
        = some { address := a, rxQ := s.nextQ, txQ := s.nextQ + 1, epHandler := none }
    ∧ alookup s.nextQ (Endpoint.construct a s).2.queues = some []
    ∧ alookup (s.nextQ + 1) (Endpoint.construct a s).2.queues = some []
    ∧ s.nextQ ≠ o.rxQ ∧ s.nextQ ≠ o.txQ
    ∧ s.nextQ + 1 ≠ o.rxQ ∧ s.nextQ + 1 ≠ o.txQ := by
  obtain ⟨-, -, hq⟩ := hWF
  obtain ⟨hb1, hb2⟩ := hq (i, o) (alookup_mem hobj)
  have hb3 : o.rxQ < s.nextQ := hb1
  have hb4 : o.txQ < s.nextQ := hb2
  have hfst : (Endpoint.construct a s).1 = i := by rw [construct_of_found hreg]
  have hqs : (Endpoint.construct a s).2.queues
      = aupdate (s.nextQ + 1) [] (aupdate s.nextQ [] s.queues) := by
    rw [construct_of_found hreg]; rfl
  refine ⟨hfst, ?_, ?_, ?_, by omega, by omega, by omega, by omega⟩
  · rw [construct_endpoints a s, hfst, alookup_aupdate_self]
  · rw [hqs, alookup_aupdate_ne _ _ (by omega), alookup_aupdate_self]
  · rw [hqs, alookup_aupdate_self]

theorem elapsedAt_succ (k : Nat) :
    ClientThread.elapsedAt k + ClientThread.backoffAt k = ClientThread.elapsedAt (k + 1) := by
  unfold ClientThread.elapsedAt ClientThread.backoffAt
  rw [div_add_div_same, pow_succ]
  ring

theorem backoffAt_succ (k : Nat) :
    ClientThread.backoffAt k * 2 = ClientThread.backoffAt (k + 1) := by
  unfold ClientThread.backoffAt
  rw [pow_succ]
  ring

theorem connectAux_allFail (succ : Nat → Bool) (timeout : ℚ)
    (hsucc : ∀ m, succ m = false) :
    ∀ fuel k n : Nat, k ≤ n → n - k < fuel →
      (∀ m, k ≤ m → m < n → ClientThread.elapsedAt m ≤ timeout) →
      timeout < ClientThread.elapsedAt n →
      ClientThread.connectAux succ timeout fuel k
          (ClientThread.elapsedAt k) (ClientThread.backoffAt k)
        = ((List.range' k (n - k)).map ClientThread.backoffAt,
            ConnOutcome.connError n (ClientThread.elapsedAt n)) := by
  intro fuel
  induction fuel with
  | zero =>
      intro k n hkn hfuel hle hgt
      exact absurd hfuel (by omega)
  | succ fuel ih =>
      intro k n hkn hfuel hle hgt
      by_cases hkeq : k = n
      · subst hkeq
        simp [ClientThread.connectAux, hsucc k, hgt]
      · have hk : k < n := by omega
        have h1 : ClientThread.elapsedAt k ≤ timeout := hle k le_rfl hk
        have hnotlt : ¬ timeout < ClientThread.elapsedAt k := not_lt.mpr h1
        have hstep : n - k = (n - (k + 1)) + 1 := by omega
        simp only [ClientThread.connectAux, hsucc k, Bool.false_eq_true, if_false,
          hnotlt, if_neg]
        rw [elapsedAt_succ, backoffAt_succ,
          ih (k + 1) n (by omega) (by omega) (fun m hm1 hm2 => hle m (by omega) hm2) hgt,
          hstep, List.range'_succ]
        simp

/-- Claim C5: with every connection attempt failing, the Client connection
routine sleeps the capped-by-timeout exponential backoff sequence starting
at one millisecond and doubling after each failed attempt, and raises the
connection error exactly at the first failed attempt whose elapsed time
(measured from the first attempt) strictly exceeds the overall timeout:
`n` is that attempt, every earlier check was within the timeout, and the
recorded sleeps are exactly 2^i/1000 seconds for i below `n`. -/
theorem client_connect_backoff (succ : Nat → Bool) (timeout : ℚ) (fuel n : Nat)
    (hsucc : ∀ m, succ m = false) (hn : n < fuel)
    (hle : ∀ m, m < n → ClientThread.elapsedAt m ≤ timeout)
    (hgt : timeout < ClientThread.elapsedAt n) :
    ClientThread.connectModel succ timeout fuel
      = ((List.range n).map ClientThread.backoffAt,
          ConnOutcome.connError n (ClientThread.elapsedAt n))
    ∧ ClientThread.backoffAt 0 = 1 / 1000
    ∧ ClientThread.elapsedAt 0 = 0
    ∧ ∀ k, ClientThread.backoffAt (k + 1) = 2 * ClientThread.backoffAt k := by
  have h0e : ClientThread.elapsedAt 0 = 0 := by
    unfold ClientThread.elapsedAt; norm_num
  have h0b : ClientThread.backoffAt 0 = 1 / 1000 := by
    unfold ClientThread.backoffAt; norm_num
  refine ⟨?_, h0b, h0e, ?_⟩
  · show ClientThread.connectAux succ timeout fuel 0 0 (1 / 1000) = _
    rw [← h0e, ← h0b,
      connectAux_allFail succ timeout hsucc fuel 0 n (Nat.zero_le n) (by omega)
        (fun m _ hm => hle m hm) hgt]
    simp [List.range_eq_range']
  · intro k
    rw [← backoffAt_succ]
    ring

theorem client_connect_backoff_witness :
    ClientThread.connectModel (fun _ => false) (1 / 250) 10
      = ([1 / 1000, 2 / 1000, 4 / 1000], ConnOutcome.connError 3 (7 / 1000)) := by
  have h := client_connect_backoff (fun _ => false) (1 / 250) 10 3
    (fun m => rfl) (by omega)
    (by intro m hm; interval_cases m <;> norm_num [ClientThread.elapsedAt])
    (by norm_num [ClientThread.elapsedAt])
  rw [h.1]
  norm_num [List.range_succ, ClientThread.backoffAt, ClientThread.elapsedAt]

theorem endpoint_reinit_witness :
    (Endpoint.construct "a" comWitState).1 = 0
    ∧ alookup 0 (Endpoint.construct "a" comWitState).2.endpoints
        = some { address := "a", rxQ := 2, txQ := 3, epHandler := none } := by
  have h := endpoint_reinit comWitState "a" 0
    { address := "a", rxQ := 0, txQ := 1, epHandler := some Role.listener }
    (by decide) (by decide) (by decide)
  exact ⟨h.1, h.2.1⟩
